import Mathlib

/-!
Verification of the audio-analysis core of `media-director`
(`src/python/audio_analysis.py`) against its specification.

The Python code is shallowly embedded over `ℝ`:

* numpy vectors become `List ℝ`;
* `np.diff`, `np.mean`, `np.std` (population, ddof=0) and `np.max` become
  `npDiff`, `npMean`, `npStd`, `npMax`; `np.max` on a zero-size array raises
  `ValueError`, so `npMax` returns `Except String ℝ`;
* the librosa collaborator is an abstract structure `Librosa` whose
  operations may raise (signalled by `Except.error` carrying the exception
  message), exactly the operations the source calls;
* `analyze_audio`'s `try`/`except` boundary becomes a `match` on the
  exception-propagating pipeline `analyze_pipeline`.

One deliberate modelling note: `np.mean` of an empty array yields `NaN`
(with a suppressed warning), not an exception; here `npMean [] = 0` (Lean's
division-by-zero convention).  No claim depends on the value of a mean of an
empty stream, only on the fact that no exception is raised there.
-/

namespace MediaDirector

/-- `{time, confidence, strength}` dict built per beat (lines 50-54). -/
structure BeatEvent where
  time : ℝ
  confidence : ℝ
  strength : ℝ

/-- `{time, level}` dict built per RMS frame (lines 65-68). -/
structure EnergySample where
  time : ℝ
  level : ℝ

/-- The `spectralFeatures` sub-dict (lines 87-92). -/
structure SpectralFeatureSet where
  centroid : List ℝ
  rolloff : List ℝ
  bandwidth : List ℝ
  zeroCrossingRate : List ℝ

/-- The `rhythm` sub-dict (lines 93-96). -/
structure RhythmSummary where
  strength : ℝ
  regularity : ℝ

/-- The `stats` sub-dict (lines 97-101). -/
structure Stats where
  sampleRate : ℤ
  beatCount : ℕ
  avgEnergy : ℝ

/-- The success dict assembled at lines 82-102. -/
structure AnalysisResult where
  tempo : ℝ
  duration : ℝ
  beats : List BeatEvent
  energy : List EnergySample
  spectralFeatures : SpectralFeatureSet
  rhythm : RhythmSummary
  stats : Stats

/-- The document `analyze_audio` returns: either the success dict or the
`{"error": ..., "message": ...}` dict from the `except` branch
(lines 106-110). -/
inductive AnalysisOutput where
  | ok (result : AnalysisResult)
  | err (error : String) (message : String)

/-- `np.diff`: successive differences. -/
def npDiff : List ℝ → List ℝ
  | x :: y :: rest => (y - x) :: npDiff (y :: rest)
  | _ => []

/-- `np.mean` (over `ℝ`; empty input gives `0` in this model, see header). -/
noncomputable def npMean (xs : List ℝ) : ℝ :=
  xs.sum / xs.length

/-- `np.std` with the default `ddof=0`: population standard deviation. -/
noncomputable def npStd (xs : List ℝ) : ℝ :=
  Real.sqrt ((xs.map (fun x => (x - npMean xs) ^ 2)).sum / xs.length)

/-- `np.max`: raises `ValueError` on a zero-size array, otherwise the
maximum entry. -/
def npMax : List ℝ → Except String ℝ
  | [] => Except.error "zero-size array to reduction operation maximum which has no identity"
  | x :: rest => Except.ok (rest.foldl max x)

/-- The librosa collaborator as consumed by `analyze_audio`: exactly the
operations the source calls, each of which may raise (`Except.error` carries
`str(e)`).  Sample buffers and feature streams are `List ℝ`, frame indices
`List ℕ`, sample rates `ℤ`. -/
structure Librosa where
  load : String → Except String (List ℝ × ℤ)
  get_duration : List ℝ → ℤ → Except String ℝ
  beat_track : List ℝ → ℤ → Except String (ℝ × List ℕ)
  frames_to_time : List ℕ → ℤ → Except String (List ℝ)
  rms : List ℝ → Except String (List ℝ)
  times_like : List ℝ → ℤ → Except String (List ℝ)
  spectral_centroid : List ℝ → ℤ → Except String (List ℝ)
  spectral_rolloff : List ℝ → ℤ → Except String (List ℝ)
  spectral_bandwidth : List ℝ → ℤ → Except String (List ℝ)
  zero_crossing_rate : List ℝ → Except String (List ℝ)
  onset_strength : List ℝ → ℤ → Except String (List ℝ)

/-- `calculate_rhythm_regularity` (lines 113-145), line by line. -/
noncomputable def calculate_rhythm_regularity (beat_times : List ℝ) : ℝ :=
  if beat_times.length < 3 then 0.5
  else
    let intervals := npDiff beat_times
    if intervals.length = 0 then 0.5
    else
      let mean_interval := npMean intervals
      let std_interval := npStd intervals
      if mean_interval = 0 then 0.5
      else
        let cv := std_interval / mean_interval
        max 0 (min 1 (1 - cv * 2))

/-- The beat dicts of lines 48-54: constant confidence `0.85` and
strength `0.8` per beat time. -/
def mkBeats (beat_times : List ℝ) : List BeatEvent :=
  beat_times.map (fun t => { time := t, confidence := 0.85, strength := 0.8 })

/-- Line 61: `rms / (np.max(rms) if np.max(rms) > 0 else 1.0)`, given the
already-reduced maximum `m`. -/
noncomputable def normalizeRms (rms : List ℝ) (m : ℝ) : List ℝ :=
  rms.map (fun v => v / (if m > 0 then m else 1.0))

/-- Lines 63-68: `zip(rms_times, rms_normalized)` into `{time, level}`
dicts. -/
def mkEnergy (rms_times rms_normalized : List ℝ) : List EnergySample :=
  (rms_times.zip rms_normalized).map (fun p => { time := p.1, level := p.2 })

/-- The pure assembly of the success dict (lines 48-102) from the
collaborator outputs of one run; `m` is the value `np.max(rms)` computed at
line 61. -/
noncomputable def buildResult (sr : ℤ) (duration tempo : ℝ)
    (beat_times rms rms_times : List ℝ) (m : ℝ)
    (centroid rolloff bandwidth zcr onset_env : List ℝ) : AnalysisResult :=
  let beats := mkBeats beat_times
  let rms_normalized := normalizeRms rms m
  { tempo := tempo
    duration := duration
    beats := beats
    energy := mkEnergy rms_times rms_normalized
    spectralFeatures :=
      { centroid := centroid, rolloff := rolloff, bandwidth := bandwidth
        zeroCrossingRate := zcr }
    rhythm :=
      { strength := npMean onset_env
        regularity := calculate_rhythm_regularity beat_times }
    stats :=
      { sampleRate := sr, beatCount := beats.length
        avgEnergy := npMean rms_normalized } }

/-- The body of the `try` block (lines 36-104): the straight-line sequence
of collaborator calls in source order, each of which may raise, ending in
the assembled result.  `np.max(rms)` (line 61) is the one numpy reduction
that itself raises, on an empty stream. -/
noncomputable def analyze_pipeline (lib : Librosa) (audio_path : String) :
    Except String AnalysisResult :=
  match lib.load audio_path with
  | .error e => .error e
  | .ok (y, sr) =>
    match lib.get_duration y sr with
    | .error e => .error e
    | .ok duration =>
      match lib.beat_track y sr with
      | .error e => .error e
      | .ok (tempo, beat_frames) =>
        match lib.frames_to_time beat_frames sr with
        | .error e => .error e
        | .ok beat_times =>
          match lib.rms y with
          | .error e => .error e
          | .ok rms =>
            match lib.times_like rms sr with
            | .error e => .error e
            | .ok rms_times =>
              match npMax rms with
              | .error e => .error e
              | .ok m =>
                match lib.spectral_centroid y sr with
                | .error e => .error e
                | .ok centroid =>
                  match lib.spectral_rolloff y sr with
                  | .error e => .error e
                  | .ok rolloff =>
                    match lib.spectral_bandwidth y sr with
                    | .error e => .error e
                    | .ok bandwidth =>
                      match lib.zero_crossing_rate y with
                      | .error e => .error e
                      | .ok zcr =>
                        match lib.onset_strength y sr with
                        | .error e => .error e
                        | .ok onset_env =>
                          .ok (buildResult sr duration tempo beat_times rms
                            rms_times m centroid rolloff bandwidth zcr
                            onset_env)

/-- `analyze_audio` (lines 25-110): the single `try`/`except` failure
boundary; an exception with message `e` becomes the
`{"error": e, "message": "Failed to analyze audio: " + e}` dict. -/
noncomputable def analyze_audio (lib : Librosa) (audio_path : String) :
    AnalysisOutput :=
  match analyze_pipeline lib audio_path with
  | .ok result => .ok result
  | .error e => .err e ("Failed to analyze audio: " ++ e)

/-- Keys of the success dict literal (lines 82-102). -/
def resultKeys : List String :=
  ["tempo", "duration", "beats", "energy", "spectralFeatures", "rhythm", "stats"]

/-- Keys of the error dict literal (lines 107-110). -/
def errorKeys : List String :=
  ["error", "message"]

/-- The set of keys of the document a run produces: each return site of
`analyze_audio` is a dict literal with a fixed key set. -/
def docKeys : AnalysisOutput → List String
  | .ok _ => resultKeys
  | .err _ _ => errorKeys

/-! ### Helper lemmas on the numpy reductions -/

lemma le_foldl_max_init (l : List ℝ) (x : ℝ) : x ≤ l.foldl max x := by
  induction l generalizing x with
  | nil => exact le_rfl
  | cons a l ih => exact le_trans (le_max_left x a) (ih (max x a))

lemma le_foldl_max_of_mem : ∀ (l : List ℝ) (v x : ℝ), v ∈ l → v ≤ l.foldl max x
  | a :: l, v, x, hv => by
    rcases List.mem_cons.mp hv with rfl | h
    · exact le_trans (le_max_right x v) (le_foldl_max_init l (max x v))
    · exact le_foldl_max_of_mem l v (max x a) h

lemma foldl_max_mem (l : List ℝ) (x : ℝ) :
    l.foldl max x = x ∨ l.foldl max x ∈ l := by
  induction l generalizing x with
  | nil => exact Or.inl rfl
  | cons a l ih =>
    have hfold : (a :: l).foldl max x = l.foldl max (max x a) := rfl
    rcases ih (max x a) with h | h
    · rcases max_cases x a with ⟨h1, _⟩ | ⟨h1, _⟩
      · left; rw [hfold, h, h1]
      · right; rw [hfold, h, h1]; exact List.mem_cons_self a l
    · right; rw [hfold]; exact List.mem_cons_of_mem a h

lemma npMax_ok_le {xs : List ℝ} {m : ℝ} (h : npMax xs = .ok m) :
    ∀ v ∈ xs, v ≤ m := by
  match xs with
  | [] => cases h
  | x :: rest =>
    cases h
    intro v hv
    rcases List.mem_cons.mp hv with rfl | hv
    · exact le_foldl_max_init rest v
    · exact le_foldl_max_of_mem rest v x hv

lemma npMax_ok_mem {xs : List ℝ} {m : ℝ} (h : npMax xs = .ok m) : m ∈ xs := by
  match xs with
  | [] => cases h
  | x :: rest =>
    cases h
    rcases foldl_max_mem rest x with h | h
    · rw [h]; exact List.mem_cons_self x rest
    · exact List.mem_cons_of_mem x h

lemma npMax_ne_nil {xs : List ℝ} {m : ℝ} (h : npMax xs = .ok m) : xs ≠ [] := by
  intro hnil; subst hnil; cases h

lemma npDiff_length (ts : List ℝ) : (npDiff ts).length = ts.length - 1 := by
  induction ts with
  | nil => rfl
  | cons a ts ih =>
    cases ts with
    | nil => rfl
    | cons b ts' =>
      simp only [npDiff, List.length_cons] at ih ⊢
      omega

lemma npDiff_map_affine (c d : ℝ) (ts : List ℝ) :
    npDiff (ts.map (fun t => c * t + d)) = (npDiff ts).map (fun x => c * x) := by
  induction ts with
  | nil => rfl
  | cons a ts ih =>
    cases ts with
    | nil => rfl
    | cons b ts' =>
      simp only [List.map_cons, npDiff, List.map_cons] at ih ⊢
      refine congrArg₂ _ (by ring) ?_
      simpa using ih

lemma npMean_map_mul (c : ℝ) (xs : List ℝ) :
    npMean (xs.map (fun x => c * x)) = c * npMean xs := by
  unfold npMean
  rw [List.length_map]
  have : (xs.map (fun x => c * x)).sum = c * xs.sum := by
    induction xs with
    | nil => simp
    | cons a xs ih => simp [ih]; ring
  rw [this, mul_div_assoc]

lemma npStd_map_mul (c : ℝ) (xs : List ℝ) :
    npStd (xs.map (fun x => c * x)) = |c| * npStd xs := by
  unfold npStd
  rw [npMean_map_mul, List.length_map]
  have h1 : (xs.map (fun x => c * x)).map
      (fun x => (x - c * npMean xs) ^ 2) =
      xs.map (fun x => c ^ 2 * (x - npMean xs) ^ 2) := by
    rw [List.map_map]
    exact List.map_congr_left (fun x _ => by simp [Function.comp]; ring)
  rw [h1]
  rw [List.sum_map_mul_left, mul_div_assoc, Real.sqrt_mul (sq_nonneg c),
    Real.sqrt_sq_eq_abs]

/-- Inversion of a successful run: a success result records the outputs of
the twelve collaborator/numpy steps, in source order, and is exactly their
assembly. -/
lemma analyze_pipeline_ok_inv {lib : Librosa} {p : String} {r : AnalysisResult}
    (h : analyze_pipeline lib p = .ok r) :
    ∃ y sr duration tempo beat_frames beat_times rms rms_times m centroid
      rolloff bandwidth zcr onset_env,
      lib.load p = .ok (y, sr) ∧
      lib.get_duration y sr = .ok duration ∧
      lib.beat_track y sr = .ok (tempo, beat_frames) ∧
      lib.frames_to_time beat_frames sr = .ok beat_times ∧
      lib.rms y = .ok rms ∧
      lib.times_like rms sr = .ok rms_times ∧
      npMax rms = .ok m ∧
      lib.spectral_centroid y sr = .ok centroid ∧
      lib.spectral_rolloff y sr = .ok rolloff ∧
      lib.spectral_bandwidth y sr = .ok bandwidth ∧
      lib.zero_crossing_rate y = .ok zcr ∧
      lib.onset_strength y sr = .ok onset_env ∧
      r = buildResult sr duration tempo beat_times rms rms_times m centroid
        rolloff bandwidth zcr onset_env := by
  unfold analyze_pipeline at h
  repeat' split at h
  all_goals cases h
  exact ⟨_, _, _, _, _, _, _, _, _, _, _, _, _, _, by assumption, by assumption,
    by assumption, by assumption, by assumption, by assumption, by assumption,
    by assumption, by assumption, by assumption, by assumption, by assumption,
    rfl⟩

lemma analyze_audio_ok {lib : Librosa} {path : String} {r : AnalysisResult} :
    analyze_audio lib path = .ok r ↔ analyze_pipeline lib path = .ok r := by
  unfold analyze_audio
  cases analyze_pipeline lib path with
  | ok r' => simp
  | error e => simp

/-! ### Concrete collaborator instances used as witnesses and
counterexamples -/

/-- A collaborator on which every operation succeeds: a two-sample silent
buffer, one detected beat at `0.5` s, one RMS frame of value `0`, duration
`1` s. -/
noncomputable def goodLib : Librosa where
  load := fun _ => .ok ([0, 0], 22050)
  get_duration := fun _ _ => .ok 1
  beat_track := fun _ _ => .ok (120, [1])
  frames_to_time := fun _ _ => .ok [0.5]
  rms := fun _ => .ok [0]
  times_like := fun _ _ => .ok [0.5]
  spectral_centroid := fun _ _ => .ok []
  spectral_rolloff := fun _ _ => .ok []
  spectral_bandwidth := fun _ _ => .ok []
  zero_crossing_rate := fun _ => .ok []
  onset_strength := fun _ _ => .ok []

/-- A collaborator whose decode raises with message `"boom"`. -/
noncomputable def failLib : Librosa :=
  { goodLib with load := fun _ => .error "boom" }

/-- A collaborator producing an RMS stream with a negative entry. -/
noncomputable def negRmsLib : Librosa :=
  { goodLib with rms := fun _ => .ok [-1], times_like := fun _ _ => .ok [0] }

/-- A collaborator reporting a beat time (`5` s) past the reported
duration (`1` s). -/
noncomputable def badTimeLib : Librosa :=
  { goodLib with frames_to_time := fun _ _ => .ok [5] }

/-- A collaborator that returns an empty sample buffer and well-formed but
empty feature streams for it. -/
noncomputable def emptyLib : Librosa where
  load := fun _ => .ok ([], 22050)
  get_duration := fun _ _ => .ok 0
  beat_track := fun _ _ => .ok (0, [])
  frames_to_time := fun _ _ => .ok []
  rms := fun _ => .ok []
  times_like := fun _ _ => .ok []
  spectral_centroid := fun _ _ => .ok []
  spectral_rolloff := fun _ _ => .ok []
  spectral_bandwidth := fun _ _ => .ok []
  zero_crossing_rate := fun _ => .ok []
  onset_strength := fun _ _ => .ok []

/-! ### Claims about the Rhythm Regularity Estimator -/

/-- C1: for every beat-timestamp sequence of length ≥ 3 whose successive
inter-beat intervals have nonzero arithmetic mean,
`calculate_rhythm_regularity` returns `clamp (1 - 2·(σ/μ)) 0 1`, where `μ`
is the mean and `σ` the population standard deviation of the consecutive
differences; in particular it returns exactly `1` for the evenly-spaced
sequence `[0, 0.5, 1, 1.5]` and exactly `0` for `[0, 1, 2, 3, 103]`, whose
intervals are `[1, 1, 1, 100]`. -/
theorem regularity_formula_C1 :
    (∀ ts : List ℝ, 3 ≤ ts.length → npMean (npDiff ts) ≠ 0 →
      calculate_rhythm_regularity ts =
        max 0 (min 1 (1 - 2 * (npStd (npDiff ts) / npMean (npDiff ts))))) ∧
    calculate_rhythm_regularity [0, 0.5, 1, 1.5] = 1 ∧
    (npDiff [0, 1, 2, 3, 103] = [1, 1, 1, 100] ∧
      calculate_rhythm_regularity [0, 1, 2, 3, 103] = 0) := by
  refine ⟨?_, ?_, ?_, ?_⟩
  · intro ts h3 hm
    have hlen : ¬(ts.length < 3) := by omega
    have hil : ¬((npDiff ts).length = 0) := by rw [npDiff_length]; omega
    simp only [calculate_rhythm_regularity, if_neg hlen, if_neg hil, if_neg hm]
    have h : 1 - npStd (npDiff ts) / npMean (npDiff ts) * 2 =
        1 - 2 * (npStd (npDiff ts) / npMean (npDiff ts)) := by ring
    rw [h]
  · have hd : npDiff [0, 0.5, 1, 1.5] = [0.5, 0.5, 0.5] := by
      norm_num [npDiff]
    have hm : npMean [(1 / 2 : ℝ), 1 / 2, 1 / 2] = 1 / 2 := by
      norm_num [npMean]
    have hs : npStd [(1 / 2 : ℝ), 1 / 2, 1 / 2] = 0 := by
      norm_num [npStd, npMean]
    simp only [calculate_rhythm_regularity, hd]
    norm_num [hm, hs]
  · norm_num [npDiff]
  · have hd : npDiff [0, 1, 2, 3, 103] = [1, 1, 1, 100] := by
      norm_num [npDiff]
    have hm : npMean [(1 : ℝ), 1, 1, 100] = 103 / 4 := by
      norm_num [npMean]
    have hs : (103 / 8 : ℝ) ≤ npStd [(1 : ℝ), 1, 1, 100] := by
      simp only [npStd, hm]
      rw [Real.le_sqrt (by norm_num) (by norm_num)]
      norm_num
    simp only [calculate_rhythm_regularity, hd]
    rw [if_neg (by norm_num), if_neg (by norm_num),
      if_neg (by rw [hm]; norm_num), hm]
    have h2 : npStd [(1 : ℝ), 1, 1, 100] / (103 / 4) * 2 ≥ 1 := by
      rw [ge_iff_le, div_mul_eq_mul_div, le_div_iff₀ (by norm_num)]
      nlinarith [hs]
    have h3 : (1 : ℝ) - npStd [(1 : ℝ), 1, 1, 100] / (103 / 4) * 2 ≤ 0 := by
      linarith
    rw [min_eq_right (by linarith), max_eq_left h3]

/-- Witness for C1 at the evenly-spaced sequence `[0, 0.5, 1, 1.5]`. -/
theorem regularity_formula_C1_witness :
    3 ≤ ([0, 0.5, 1, 1.5] : List ℝ).length ∧
    npMean (npDiff [0, 0.5, 1, 1.5]) ≠ 0 ∧
    calculate_rhythm_regularity [0, 0.5, 1, 1.5] =
      max 0 (min 1 (1 - 2 * (npStd (npDiff [0, 0.5, 1, 1.5]) /
        npMean (npDiff [0, 0.5, 1, 1.5])))) :=
  ⟨by norm_num, by norm_num [npDiff, npMean],
    regularity_formula_C1.1 _ (by norm_num) (by norm_num [npDiff, npMean])⟩

/-- C2: every sequence of fewer than 3 beat timestamps scores exactly 0.5,
and so does every sequence whose mean inter-beat interval is exactly 0. -/
theorem regularity_neutral_C2 :
    (∀ ts : List ℝ, ts.length < 3 → calculate_rhythm_regularity ts = 0.5) ∧
    (∀ ts : List ℝ, npMean (npDiff ts) = 0 →
      calculate_rhythm_regularity ts = 0.5) := by
  constructor
  · intro ts h
    simp only [calculate_rhythm_regularity, if_pos h]
  · intro ts hm
    by_cases h1 : ts.length < 3
    · simp only [calculate_rhythm_regularity, if_pos h1]
    · by_cases h2 : (npDiff ts).length = 0
      · simp only [calculate_rhythm_regularity, if_neg h1, if_pos h2]
      · simp only [calculate_rhythm_regularity, if_neg h1, if_neg h2,
          if_pos hm]

/-- Witness for C2 at the short sequence `[0, 1]` and at the constant
sequence `[5, 5, 5, 5]`, whose intervals all vanish. -/
theorem regularity_neutral_C2_witness :
    calculate_rhythm_regularity [0, 1] = 0.5 ∧
    calculate_rhythm_regularity [5, 5, 5, 5] = 0.5 :=
  ⟨regularity_neutral_C2.1 _ (by norm_num),
    regularity_neutral_C2.2 _ (by norm_num [npDiff, npMean])⟩

/-- C10: `calculate_rhythm_regularity` is invariant under affine time
reparameterization `t ↦ c·t + d` with `c > 0`. -/
theorem regularity_affine_invariance_C10 (ts : List ℝ) (c d : ℝ)
    (hc : 0 < c) :
    calculate_rhythm_regularity (ts.map (fun t => c * t + d)) =
      calculate_rhythm_regularity ts := by
  simp only [calculate_rhythm_regularity, npDiff_map_affine, npMean_map_mul,
    npStd_map_mul, List.length_map]
  by_cases h1 : ts.length < 3
  · rw [if_pos h1, if_pos h1]
  · rw [if_neg h1, if_neg h1]
    by_cases h2 : (npDiff ts).length = 0
    · rw [if_pos h2, if_pos h2]
    · rw [if_neg h2, if_neg h2]
      by_cases h3 : npMean (npDiff ts) = 0
      · rw [h3, mul_zero, if_pos rfl, if_pos rfl]
      · have h4 : c * npMean (npDiff ts) ≠ 0 := mul_ne_zero (ne_of_gt hc) h3
        rw [if_neg h4, if_neg h3, abs_of_pos hc,
          mul_div_mul_left (npStd (npDiff ts)) (npMean (npDiff ts))
            (ne_of_gt hc)]

/-- Witness for C10 at `ts = [0, 1, 2]`, `c = 2`, `d = 3`. -/
theorem regularity_affine_invariance_C10_witness :
    calculate_rhythm_regularity ([0, 1, 2].map (fun t => 2 * t + 3)) =
      calculate_rhythm_regularity [0, 1, 2] :=
  regularity_affine_invariance_C10 [0, 1, 2] 2 3 (by norm_num)

/-! ### Claims about the pipeline and result assembly -/

/-- C3: every produced document is exactly one of the two shapes — the
full result dict or the `{error, message}` dict — never both and never
neither; the two key sets are disjoint. -/
theorem output_shape_C3 (lib : Librosa) (path : String) :
    Xor' (docKeys (analyze_audio lib path) = resultKeys)
      (docKeys (analyze_audio lib path) = errorKeys) ∧
    ∀ k ∈ resultKeys, k ∉ errorKeys := by
  have hne : resultKeys ≠ errorKeys := by decide
  have hne' : errorKeys ≠ resultKeys := by decide
  constructor
  · unfold analyze_audio
    cases analyze_pipeline lib path with
    | ok r => exact Or.inl ⟨rfl, hne⟩
    | error e => exact Or.inr ⟨rfl, hne'⟩
  · decide

/-- Witness for C3 at a concrete run: the produced document has exactly
one shape, and the result key `"tempo"` is not an error key. -/
theorem output_shape_C3_witness :
    Xor' (docKeys (analyze_audio goodLib "clip.wav") = resultKeys)
      (docKeys (analyze_audio goodLib "clip.wav") = errorKeys) ∧
    "tempo" ∉ errorKeys :=
  ⟨(output_shape_C3 goodLib "clip.wav").1,
    (output_shape_C3 goodLib "clip.wav").2 "tempo" (by decide)⟩

/-- C4: the normalization divides each RMS value by the stream maximum,
divisor `1.0` when the maximum is `0` (RMS values are nonnegative by
definition of root-mean-square); `[0,0,0,0]` normalizes to all zeros and
`[2,4,8]` to `[0.25, 0.5, 1]`. -/
theorem normalize_C4 :
    (∀ (values : List ℝ) (m : ℝ), (∀ v ∈ values, 0 ≤ v) →
      npMax values = .ok m →
      normalizeRms values m =
        values.map (fun v => v / (if m = 0 then 1.0 else m))) ∧
    (npMax [0, 0, 0, 0] = .ok 0 ∧ normalizeRms [0, 0, 0, 0] 0 = [0, 0, 0, 0]) ∧
    (npMax [2, 4, 8] = .ok 8 ∧ normalizeRms [2, 4, 8] 8 = [0.25, 0.5, 1]) := by
  refine ⟨?_, ⟨?_, ?_⟩, ?_, ?_⟩
  · intro values m hnn hmax
    have hm0 : 0 ≤ m := hnn m (npMax_ok_mem hmax)
    rcases lt_or_eq_of_le hm0 with hpos | heq
    · unfold normalizeRms
      rw [if_pos hpos, if_neg (ne_of_gt hpos)]
    · unfold normalizeRms
      rw [← heq]
      norm_num
  · norm_num [npMax, List.foldl]
  · norm_num [normalizeRms]
  · norm_num [npMax, List.foldl, max_def]
  · norm_num [normalizeRms]

/-- Witness for C4 at the stream `[2, 4, 8]` with maximum `8`. -/
theorem normalize_C4_witness :
    normalizeRms [2, 4, 8] 8 =
      [2, 4, 8].map (fun v => v / (if (8 : ℝ) = 0 then 1.0 else 8)) :=
  normalize_C4.1 [2, 4, 8] 8 (by norm_num)
    (by norm_num [npMax, List.foldl, max_def])

/-- C8: whenever the decode — or any later pipeline stage — raises with
message `m`, `analyze_audio` returns exactly the
`{error: m, message: "Failed to analyze audio: " + m}` document, with no
result fields. -/
theorem error_document_C8 (lib : Librosa) (path : String) (m : String)
    (h : lib.load path = .error m ∨ analyze_pipeline lib path = .error m) :
    analyze_audio lib path = .err m ("Failed to analyze audio: " ++ m) ∧
    docKeys (analyze_audio lib path) = errorKeys := by
  have hp : analyze_pipeline lib path = .error m := by
    rcases h with h | h
    · unfold analyze_pipeline
      rw [h]
    · exact h
  refine ⟨?_, ?_⟩
  · unfold analyze_audio
    rw [hp]
  · unfold analyze_audio
    rw [hp]
    rfl

/-- Witness for C8: a collaborator whose decode raises `"boom"`. -/
theorem error_document_C8_witness :
    analyze_audio failLib "song.mp3" =
      .err "boom" "Failed to analyze audio: boom" ∧
    docKeys (analyze_audio failLib "song.mp3") = errorKeys :=
  error_document_C8 failLib "song.mp3" "boom" (Or.inl rfl)

/-- C9: in every successfully assembled result, the length of the beats
list equals `stats.beatCount`. -/
theorem beat_count_C9 (lib : Librosa) (path : String) (r : AnalysisResult)
    (h : analyze_audio lib path = .ok r) :
    r.beats.length = r.stats.beatCount := by
  obtain ⟨y, sr, dur, tempo, bf, bts, rms, rts, m, cen, rol, ban, zcr, ons,
    -, -, -, -, -, -, -, -, -, -, -, -, hr⟩ :=
    analyze_pipeline_ok_inv (analyze_audio_ok.mp h)
  subst hr
  rfl

/-- Witness for C9 at a concrete successful run. -/
theorem beat_count_C9_witness :
    ∃ r, analyze_audio goodLib "clip.wav" = .ok r ∧
      r.beats.length = r.stats.beatCount :=
  ⟨_, rfl, beat_count_C9 goodLib "clip.wav" _ rfl⟩

/-- Counterexample to C5 as stated: for an arbitrary collaborator-produced
RMS stream the levels are not clamped — a stream containing `-1` yields a
successfully assembled result with a negative energy level. -/
theorem energy_level_C5_counterexample :
    ∃ r, analyze_audio negRmsLib "clip.wav" = .ok r ∧
      ¬(∀ e ∈ r.energy, 0 ≤ e.level ∧ e.level ≤ 1) := by
  refine ⟨_, rfl, fun hall => ?_⟩
  have hmem : ({ time := 0, level := -1 } : EnergySample) ∈
      (buildResult 22050 1 120 [0.5] [-1] [0] (-1) [] [] [] [] []).energy := by
    simp only [buildResult, mkEnergy, normalizeRms, List.map_cons,
      List.map_nil, List.zip_cons_cons, List.zip_nil_right]
    norm_num
  have := (hall _ hmem).1
  norm_num at this

/-- C5 (amended): in every successfully assembled result the constant beat
confidence `0.85` and strength `0.8` lie in `[0,1]`; and every energy level
lies in `[0,1]` provided the collaborator's RMS stream is entrywise
nonnegative (as a root-mean-square stream is). -/
theorem bounded_levels_C5 (lib : Librosa) (path : String) (r : AnalysisResult)
    (hrms : ∀ y vs, lib.rms y = .ok vs → ∀ v ∈ vs, 0 ≤ v)
    (h : analyze_audio lib path = .ok r) :
    (∀ e ∈ r.energy, 0 ≤ e.level ∧ e.level ≤ 1) ∧
    (∀ b ∈ r.beats, (0 ≤ b.confidence ∧ b.confidence ≤ 1) ∧
      (0 ≤ b.strength ∧ b.strength ≤ 1)) := by
  obtain ⟨y, sr, dur, tempo, bf, bts, rms, rts, m, cen, rol, ban, zcr, ons,
    -, -, -, -, hrmseq, -, hmax, -, -, -, -, -, hr⟩ :=
    analyze_pipeline_ok_inv (analyze_audio_ok.mp h)
  subst hr
  constructor
  · intro e he
    simp only [buildResult, mkEnergy, List.mem_map] at he
    obtain ⟨p, hp2, rfl⟩ := he
    obtain ⟨-, h2⟩ := List.of_mem_zip hp2
    simp only [normalizeRms, List.mem_map] at h2
    obtain ⟨v, hv, hveq⟩ := h2
    have hvn : 0 ≤ v := hrms y rms hrmseq v hv
    have hvm : v ≤ m := npMax_ok_le hmax v hv
    rw [← hveq]
    by_cases hm : m > 0
    · rw [if_pos hm]
      exact ⟨div_nonneg hvn (le_of_lt hm), (div_le_one hm).mpr hvm⟩
    · rw [if_neg hm]
      have hv0 : v = 0 := le_antisymm (le_trans hvm (not_lt.mp hm)) hvn
      rw [hv0]
      norm_num
  · intro b hb
    simp only [buildResult, mkBeats, List.mem_map] at hb
    obtain ⟨t, ht, rfl⟩ := hb
    norm_num

/-- Witness for C5 (amended) at a concrete successful run with nonnegative
RMS stream. -/
theorem bounded_levels_C5_witness :
    ∃ r, analyze_audio goodLib "clip.wav" = .ok r ∧
      (∀ e ∈ r.energy, 0 ≤ e.level ∧ e.level ≤ 1) :=
  ⟨_, rfl,
    (bounded_levels_C5 goodLib "clip.wav" _
      (fun y vs hvs v hv => by
        injection hvs with h2
        subst h2
        rw [List.mem_singleton] at hv
        rw [hv])
      rfl).1⟩

/-- Counterexample to C6 as stated: nothing in the code checks times
against the duration — a collaborator reporting a beat at `5` s with
duration `1` s yields a successfully assembled result whose beat time
exceeds the duration. -/
theorem beat_time_C6_counterexample :
    ∃ r, analyze_audio badTimeLib "clip.wav" = .ok r ∧
      ¬(∀ b ∈ r.beats, 0 ≤ b.time ∧ b.time ≤ r.duration) := by
  refine ⟨_, rfl, fun hall => ?_⟩
  have hmem : ({ time := 5, confidence := 0.85, strength := 0.8 } :
      BeatEvent) ∈
      (buildResult 22050 1 120 [5] [0] [0.5] 0 [] [] [] [] []).beats := by
    simp [buildResult, mkBeats]
  have := (hall _ hmem).2
  norm_num [buildResult] at this

/-- C6 (amended): the assembler passes every collaborator-reported time
through unchanged, so whenever the collaborator's beat times and frame
times are nonnegative and at most its reported duration, every time-bearing
field of the result lies in `[0, duration]`. -/
theorem times_within_duration_C6 (lib : Librosa) (path : String)
    (r : AnalysisResult)
    (hlib : ∀ y sr dur frames bts s ets,
      lib.get_duration y sr = .ok dur →
      lib.frames_to_time frames sr = .ok bts →
      lib.times_like s sr = .ok ets →
      ∀ t, (t ∈ bts ∨ t ∈ ets) → 0 ≤ t ∧ t ≤ dur)
    (h : analyze_audio lib path = .ok r) :
    (∀ b ∈ r.beats, 0 ≤ b.time ∧ b.time ≤ r.duration) ∧
    (∀ e ∈ r.energy, 0 ≤ e.time ∧ e.time ≤ r.duration) := by
  obtain ⟨y, sr, dur, tempo, bf, bts, rms, rts, m, cen, rol, ban, zcr, ons,
    -, hdur, -, hftt, -, htl, -, -, -, -, -, -, hr⟩ :=
    analyze_pipeline_ok_inv (analyze_audio_ok.mp h)
  subst hr
  have hb := fun t ht => hlib y sr dur bf bts rms rts hdur hftt htl t
    (Or.inl ht)
  have he := fun t ht => hlib y sr dur bf bts rms rts hdur hftt htl t
    (Or.inr ht)
  constructor
  · intro b hbmem
    simp only [buildResult, mkBeats, List.mem_map] at hbmem
    obtain ⟨t, ht, rfl⟩ := hbmem
    simpa [buildResult] using hb t ht
  · intro e hemem
    simp only [buildResult, mkEnergy, List.mem_map] at hemem
    obtain ⟨p, hp2, rfl⟩ := hemem
    simpa [buildResult] using he p.1 (List.of_mem_zip hp2).1

/-- Witness for C6 (amended) at a concrete collaborator whose reported
times all lie within the reported duration. -/
theorem times_within_duration_C6_witness :
    ∃ r, analyze_audio goodLib "clip.wav" = .ok r ∧
      (∀ b ∈ r.beats, 0 ≤ b.time ∧ b.time ≤ r.duration) ∧
      (∀ e ∈ r.energy, 0 ≤ e.time ∧ e.time ≤ r.duration) := by
  refine ⟨_, rfl, ?_⟩
  refine times_within_duration_C6 goodLib "clip.wav" _ ?_ rfl
  intro y sr dur frames bts s ets hdur hftt htl t ht
  injection hdur with h1
  injection hftt with h2
  injection htl with h3
  subst h1; subst h2; subst h3
  rcases ht with ht | ht <;> rw [List.mem_singleton] at ht <;> rw [ht] <;>
    norm_num

/-- Counterexample to C7 as stated: feature streams are allowed to be
"possibly empty", but on an empty RMS stream the normalization's
`np.max` reduction raises, so the pipeline reaches the error branch even
though the loader and every extractor succeeded on the empty buffer. -/
theorem empty_rms_C7_counterexample :
    emptyLib.load "clip.wav" = .ok ([], 22050) ∧
    emptyLib.rms [] = .ok [] ∧
    analyze_audio emptyLib "clip.wav" =
      .err "zero-size array to reduction operation maximum which has no identity"
        "Failed to analyze audio: zero-size array to reduction operation maximum which has no identity" :=
  ⟨rfl, rfl, rfl⟩

/-- C7 (amended): for a degenerate (empty or all-zero) buffer, if every
collaborator call returns (well-formed feature streams) and the RMS stream
is nonempty — as librosa's centered framing guarantees — the pipeline
produces a success-shaped result. -/
theorem degenerate_success_C7 (lib : Librosa) (path : String)
    (y : List ℝ) (sr : ℤ) (dur tempo : ℝ) (bf : List ℕ)
    (bts rms rts cen rol ban zcr ons : List ℝ)
    (hload : lib.load path = .ok (y, sr))
    (_hdeg : y = [] ∨ ∀ s ∈ y, s = 0)
    (hdur : lib.get_duration y sr = .ok dur)
    (hbt : lib.beat_track y sr = .ok (tempo, bf))
    (hftt : lib.frames_to_time bf sr = .ok bts)
    (hrms : lib.rms y = .ok rms)
    (hne : rms ≠ [])
    (htl : lib.times_like rms sr = .ok rts)
    (hc : lib.spectral_centroid y sr = .ok cen)
    (hro : lib.spectral_rolloff y sr = .ok rol)
    (hba : lib.spectral_bandwidth y sr = .ok ban)
    (hz : lib.zero_crossing_rate y = .ok zcr)
    (ho : lib.onset_strength y sr = .ok ons) :
    ∃ result, analyze_audio lib path = .ok result := by
  obtain ⟨x, rest, rfl⟩ := List.exists_cons_of_ne_nil hne
  have hpipe : analyze_pipeline lib path =
      .ok (buildResult sr dur tempo bts (x :: rest) rts (rest.foldl max x)
        cen rol ban zcr ons) := by
    simp only [analyze_pipeline, hload, hdur, hbt, hftt, hrms, htl, npMax,
      hc, hro, hba, hz, ho]
  exact ⟨_, analyze_audio_ok.mpr hpipe⟩

/-- Witness for C7 (amended): an all-zero two-sample buffer with a
one-frame RMS stream. -/
theorem degenerate_success_C7_witness :
    ∃ result, analyze_audio goodLib "clip.wav" = .ok result :=
  degenerate_success_C7 goodLib "clip.wav" [0, 0] 22050 1 120 [1] [0.5] [0]
    [0.5] [] [] [] [] [] rfl (Or.inr (by norm_num)) rfl rfl rfl rfl
    (by norm_num) rfl rfl rfl rfl rfl rfl

end MediaDirector
